import Mathlib

/-!
Verification development for the wallybot custodial-wallet bot.

The definitions below are a shallow embedding of the JavaScript sources:
the webhook ingress and funding pipeline, the polling
reconciler, and the transfer state machine with its security guard.
Money values are rationals (the source uses JS numbers with two-decimal
semantics); database tables are lists or finite maps threaded explicitly;
asynchronous handlers are modelled as sequential state transformers.
-/

namespace WallyBot

/-! ## Webhook signature verification

Embeds handlePaystackWebhook from the production webhook handler:
the signature header is compared against an HMAC-SHA512 of
req.rawBody when present, falling back to JSON.stringify(req.body),
except that a signature header equal to the literal string REPLAY
bypasses verification entirely. The HMAC itself is treated as an
opaque environment function. -/

structure WebhookRequest where
  signature : Option String
  rawBody : Option String
  jsonBody : String
deriving Repr, DecidableEq

/-- The string hashed by the handler: req.rawBody when present, else
the re-serialized JSON.stringify(req.body). -/
def bodyString (r : WebhookRequest) : String :=
  r.rawBody.getD r.jsonBody

/-- The acceptance decision of handlePaystackWebhook: accept when the
signature header is the literal REPLAY, or when it equals the HMAC of
bodyString; a missing header is rejected (the computed hash never
equals an absent header). -/
def signatureAccepted (hmac : String → String) (r : WebhookRequest) : Bool :=
  match r.signature with
  | some s => s == "REPLAY" || hmac (bodyString r) == s
  | none => false

/-- Side-effect-visible state of the ingress path before business
processing: a security-log counter plus the event and transaction
tables that business logic would touch. -/
structure IngressState where
  securityLogs : Nat
  webhookEventRefs : List (String × String)
  transactionRefs : List String
deriving Repr, DecidableEq

inductive IngressOutcome
  | rejected400
  | acceptedForProcessing
deriving Repr, DecidableEq

/-- The synchronous gate of handlePaystackWebhook: on rejection it logs
one security event (INVALID_WEBHOOK_SIGNATURE) and returns 400 before
any business logic; on acceptance the event is handed to background
processing. -/
def webhookGate (hmac : String → String) (r : WebhookRequest) (s : IngressState) :
    IngressOutcome × IngressState :=
  if signatureAccepted hmac r then (.acceptedForProcessing, s)
  else (.rejected400, { s with securityLogs := s.securityLogs + 1 })

/-! ## Data model

Transactions and the wallet store, shared by the funding pipeline and
the transfer state machine. Balances are a total map from user id to a
rational (missing users read as 0, matching parseFloat of an absent
row only in states we never build); transactions are the append-only
table. -/

inductive TxnType
  | credit
  | transfer
deriving Repr, DecidableEq

inductive TxnStatus
  | pending
  | completed
  | failed
deriving Repr, DecidableEq

structure Txn where
  userId : Nat
  txType : TxnType
  amount : ℚ
  serviceFee : ℚ
  reference : String
  status : TxnStatus
  refunded : Bool
  createdAt : Int
deriving Repr, DecidableEq

/-- The relational store touched by the funding and transfer paths:
users.wallet_balance, transactions, webhook_events (reference and
event_type columns), and row counters for failed_fundings and
balance_reconciliation. -/
structure DB where
  balances : Nat → ℚ
  transactions : List Txn
  webhookEvents : List (String × String)
  failedFundings : Nat
  reconRows : Nat

def DB.setBalance (db : DB) (uid : Nat) (b : ℚ) : DB :=
  { db with balances := fun u => if u = uid then b else db.balances u }

/-- Update the first transaction row carrying the given reference (the
source updates by the primary key of the row returned by a
single-row lookup on reference). -/
def updateFirstTxn (ref : String) (f : Txn → Txn) : List Txn → List Txn
  | [] => []
  | t :: ts => if t.reference == ref then f t :: ts else t :: updateFirstTxn ref f ts

def findTxn (db : DB) (ref : String) : Option Txn :=
  db.transactions.find? (fun t => t.reference == ref)

def hasTxn (db : DB) (ref : String) : Bool :=
  db.transactions.any (fun t => t.reference == ref)

/-- Number of completed credit transaction rows carrying a reference. -/
def completedCreditCount (db : DB) (ref : String) : Nat :=
  (db.transactions.filter
    (fun t => t.reference == ref && t.txType == TxnType.credit
      && t.status == TxnStatus.completed)).length

/-! ## Security guard configuration (SECURITY_CONFIG in bot/index.js) -/

def MIN_TRANSACTION : ℚ := 100

def SINGLE_TRANSACTION : ℚ := 500000

def DAILY_LIMIT : ℚ := 1000000

def MAX_FAILED_ATTEMPTS : Nat := 5

def LOCKOUT_DURATION : Int := 15 * 60 * 1000

def SERVICE_FEE : ℚ := 10

/-! ## Spend limits (checkTransactionLimits) -/

/-- The daily-limit query: transactions of this user with type
transfer created today. The source filters on type and created_at
only; it does not filter on status. -/
def dailyTransferTxns (db : DB) (uid : Nat) (todayStart : Int) : List Txn :=
  db.transactions.filter
    (fun t => t.userId == uid && t.txType == TxnType.transfer && todayStart ≤ t.createdAt)

def sumAmounts (ts : List Txn) : ℚ :=
  ts.foldl (fun s t => s + t.amount) 0

def dailyTotal (db : DB) (uid : Nat) (todayStart : Int) : ℚ :=
  sumAmounts (dailyTransferTxns db uid todayStart)

inductive LimitDecision
  | allowed
  | belowMinimum
  | aboveSingleLimit
  | dailyLimitExceeded
deriving Repr, DecidableEq

/-- checkTransactionLimits: minimum, per-transaction maximum, then the
daily aggregate against the sum of all transfer rows of today. -/
def checkTransactionLimits (db : DB) (uid : Nat) (todayStart : Int) (amount : ℚ) :
    LimitDecision :=
  if amount < MIN_TRANSACTION then .belowMinimum
  else if SINGLE_TRANSACTION < amount then .aboveSingleLimit
  else if DAILY_LIMIT < dailyTotal db uid todayStart + amount then .dailyLimitExceeded
  else .allowed

/-- The daily aggregate as the spec sentence words it: the sum of only
the completed transfers of today. Kept for comparison with the
query the source actually issues. -/
def completedDailyTotal (db : DB) (uid : Nat) (todayStart : Int) : ℚ :=
  sumAmounts ((dailyTransferTxns db uid todayStart).filter
    (fun t => t.status == TxnStatus.completed))

/-- The spec-worded limit predicate (C7 wording): allow unless the
amount is below the minimum, above the single-transaction maximum, or
pushes the sum of the completed transfers of today past the daily limit. -/
def specLimitAllowed (db : DB) (uid : Nat) (todayStart : Int) (amount : ℚ) : Prop :=
  ¬(amount < MIN_TRANSACTION ∨ SINGLE_TRANSACTION < amount ∨
    DAILY_LIMIT < completedDailyTotal db uid todayStart + amount)

instance (db : DB) (uid : Nat) (todayStart : Int) (amount : ℚ) :
    Decidable (specLimitAllowed db uid todayStart amount) := by
  unfold specLimitAllowed; infer_instance

/-! ## Sessions, failed-PIN attempts, lockout -/

inductive SessionType
  | confirmTransfer
  | transferPin
  | confirmBeneficiary
deriving Repr, DecidableEq

structure TransferData where
  amount : ℚ
  accountNumber : String
deriving Repr, DecidableEq

structure Session where
  stype : SessionType
  data : TransferData
deriving Repr, DecidableEq

structure Attempts where
  count : Nat
  lockUntil : Int
deriving Repr, DecidableEq

/-- In-process bot state: the database plus the volatile userSessions
and failedAttempts maps (association lists keyed by chat id and user
id respectively). -/
structure BotState where
  db : DB
  sessions : List (Nat × Session)
  attempts : List (Nat × Attempts)

def lookupSession (s : BotState) (chatId : Nat) : Option Session :=
  (s.sessions.find? (fun p => p.1 == chatId)).map (fun p => p.2)

def deleteSession (s : BotState) (chatId : Nat) : BotState :=
  { s with sessions := s.sessions.filter (fun p => !(p.1 == chatId)) }

def setSession (s : BotState) (chatId : Nat) (sess : Session) : BotState :=
  { s with sessions := (chatId, sess) :: s.sessions.filter (fun p => !(p.1 == chatId)) }

def getAttempts (s : BotState) (uid : Nat) : Attempts :=
  ((s.attempts.find? (fun p => p.1 == uid)).map (fun p => p.2)).getD ⟨0, 0⟩

def setAttempts (s : BotState) (uid : Nat) (a : Attempts) : BotState :=
  { s with attempts := (uid, a) :: s.attempts.filter (fun p => !(p.1 == uid)) }

/-- recordFailedAttempt: increment the counter; at the threshold set
the lockout timestamp. -/
def recordFailedAttempt (now : Int) (s : BotState) (uid : Nat) : BotState :=
  let a := getAttempts s uid
  let c := a.count + 1
  setAttempts s uid
    { count := c
      lockUntil := if MAX_FAILED_ATTEMPTS ≤ c then now + LOCKOUT_DURATION else a.lockUntil }

/-- clearFailedAttempts: delete the entry for the user. -/
def clearFailedAttempts (s : BotState) (uid : Nat) : BotState :=
  { s with attempts := s.attempts.filter (fun p => !(p.1 == uid)) }

/-- isUserLockedOut: locked while the counter has reached the threshold
and the lockout window has not elapsed. -/
def isUserLockedOut (now : Int) (s : BotState) (uid : Nat) : Bool :=
  match (s.attempts.find? (fun p => p.1 == uid)).map (fun p => p.2) with
  | none => false
  | some a => decide (MAX_FAILED_ATTEMPTS ≤ a.count) && decide (now < a.lockUntil)

/-- The early lockout gate of the message handler: every inbound
message of a locked-out user is rejected before any session or
transfer handling. -/
def messageEntryAllowed (now : Int) (s : BotState) (uid : Nat) : Bool :=
  !(isUserLockedOut now s uid)

/-! ## Secure transfer execution (processSecureTransfer)

The handler receives the user row fetched at message arrival; the
balance check compares that snapshot against amount plus fee, and the
balance write stores snapshot minus total as an absolute value. The
transaction row is inserted before the balance write. -/

/-- A users-table row as fetched at message arrival (a snapshot:
walletBalance is the value read then, not the value at execution
time). -/
structure UserRow where
  id : Nat
  chatId : Nat
  pin : String
  walletBalance : ℚ
deriving Repr, DecidableEq

inductive TransferOutcome
  | insufficientBalance
  | completedTransfer
deriving Repr, DecidableEq

def processSecureTransfer (s : BotState) (user : UserRow) (td : TransferData)
    (reference : String) (now : Int) : TransferOutcome × BotState :=
  let totalAmount := td.amount + SERVICE_FEE
  let currentBalance := user.walletBalance
  if currentBalance < totalAmount then (.insufficientBalance, s)
  else
    let txn : Txn :=
      { userId := user.id, txType := .transfer, amount := td.amount,
        serviceFee := SERVICE_FEE, reference := reference, status := .completed,
        refunded := false, createdAt := now }
    let db1 := { s.db with transactions := s.db.transactions ++ [txn] }
    let db2 := db1.setBalance user.id (currentBalance - totalAmount)
    (.completedTransfer, { s with db := db2 })

/-! ## Confirmation and PIN steps (handleConfirmation, handlePinVerification) -/

inductive ConfirmOutcome
  | limitRejected
  | pinRequested
  | cancelled
  | otherSession
deriving Repr, DecidableEq

/-- handleConfirmation for a CONFIRM_TRANSFER session: on an
affirmative answer the limits are checked and, if allowed, the session
becomes TRANSFER_PIN; otherwise the session is deleted. Beneficiary
confirmations are delegated elsewhere and out of scope here. -/
def handleConfirmation (s : BotState) (user : UserRow) (isConfirmed : Bool)
    (sess : Session) (chatId : Nat) (todayStart : Int) : ConfirmOutcome × BotState :=
  if sess.stype = SessionType.confirmTransfer then
    if isConfirmed then
      match checkTransactionLimits s.db user.id todayStart sess.data.amount with
      | .allowed =>
          (.pinRequested, setSession s chatId { stype := .transferPin, data := sess.data })
      | _ => (.limitRejected, deleteSession s chatId)
    else (.cancelled, deleteSession s chatId)
  else (.otherSession, s)

inductive PinOutcome
  | notPinSession
  | invalidPin
  | lockedNow
  | transferRan (r : TransferOutcome)
deriving Repr, DecidableEq

/-- handlePinVerification: a wrong PIN records a failed attempt and
deletes the session (whatever the counter); a correct PIN clears the
counter, runs the transfer and deletes the session. PIN comparison
(bcrypt in the source) is modelled as string equality against the
stored PIN. -/
def handlePinVerification (now : Int) (s : BotState) (user : UserRow) (pin : String)
    (sess : Session) (chatId : Nat) (reference : String) : PinOutcome × BotState :=
  if sess.stype ≠ SessionType.transferPin then (.notPinSession, s)
  else if pin ≠ user.pin then
    let s1 := recordFailedAttempt now s user.id
    let s2 := deleteSession s1 chatId
    if (getAttempts s1 user.id).count < MAX_FAILED_ATTEMPTS then (.invalidPin, s2)
    else (.lockedNow, s2)
  else
    let s1 := clearFailedAttempts s user.id
    let r := processSecureTransfer s1 user sess.data reference now
    (.transferRan r.1, deleteSession r.2 chatId)

/-! ## Funding pipeline (webhook path)

Embeds handleWalletFunding of the fixed webhook handler: parse and
sanity-check the event, read the transactions table for the reference
(duplicate check), verify the charge with the processor, resolve the
user by customer code, then call the process_wallet_funding RPC. -/

/-- An inbound charge event as both ingestion paths see it: the
data object of a charge.success notification, amounts in kobo. -/
structure ChargeEvent where
  reference : String
  amountKobo : ℚ
  customerCode : Option String
  channel : String
  status : String
deriving Repr, DecidableEq

/-- Modelled from the spec: PaystackService.verifyAndGetTransactionDetails
is called by the webhook path but is not defined in the repository
sources. Per the spec it returns the authoritative processor-side
status and amount for a reference. Modelled as an environment
function producing this record. -/
structure VerifyResult where
  status : String
  amountKobo : ℚ
deriving Repr, DecidableEq

/-- Reference sanitation of the webhook path: bounded-length
alphanumeric with underscore and hyphen. -/
def referenceFormatOk (ref : String) : Bool :=
  decide (6 ≤ ref.length) && decide (ref.length ≤ 40) &&
    ref.toList.all (fun c => c.isAlphanum || c = '_' || c = '-')

inductive RpcResult
  | ok
  | uniqueViolation
deriving Repr, DecidableEq

/-- Modelled from the spec: the process_wallet_funding Postgres RPC is
invoked by the webhook path but its SQL body is not in the repository
sources. Per the spec it atomically increments the wallet balance and
inserts a completed credit transaction, failing with a
unique-constraint violation (code 23505) when a transaction with the
reference already exists. -/
def processWalletFundingRpc (db : DB) (uid : Nat) (amt : ℚ) (ref : String) (now : Int) :
    RpcResult × DB :=
  if hasTxn db ref then (.uniqueViolation, db)
  else
    let db1 := db.setBalance uid (db.balances uid + amt)
    (.ok,
      { db1 with
        transactions := db1.transactions ++
          [{ userId := uid, txType := .credit, amount := amt, serviceFee := 0,
             reference := ref, status := .completed, refunded := false, createdAt := now }] })

inductive FundOutcome
  | invalidStructure
  | invalidReference
  | duplicate
  | verifyRejected
  | userNotFound
  | rpcDuplicate
  | credited
  | skipped
deriving Repr, DecidableEq

/-- handleWalletFunding (webhook path, fixed handler): dedup by a read
of the transactions table, verification against the processor (the
verified amount wins beyond a kobo of rounding tolerance), user
resolution, then the atomic funding RPC. -/
def handleWalletFunding (findUser : String → Option Nat) (verify : String → VerifyResult)
    (db : DB) (e : ChargeEvent) (now : Int) : FundOutcome × DB :=
  match e.customerCode with
  | none => (.invalidStructure, db)
  | some c =>
    let amount := e.amountKobo / 100
    if !(referenceFormatOk e.reference) then (.invalidReference, db)
    else if hasTxn db e.reference then (.duplicate, db)
    else
      let v := verify e.reference
      if v.status ≠ "success" then
        (.verifyRejected, { db with failedFundings := db.failedFundings + 1 })
      else
        let verifiedAmount := v.amountKobo / 100
        let amount := if 1 / 100 < |verifiedAmount - amount| then verifiedAmount else amount
        match findUser c with
        | none => (.userNotFound, { db with failedFundings := db.failedFundings + 1 })
        | some uid =>
          match processWalletFundingRpc db uid amount e.reference now with
          | (.uniqueViolation, db2) => (.rpcDuplicate, db2)
          | (.ok, db2) => (.credited, db2)

/-! ## Polling reconciler (PaystackPollingService) -/

/-- Polling-side state: the database plus the in-memory
processedTransactions set of references. -/
structure PollState where
  db : DB
  processedRefs : List String

/-- processTransaction of the polling service: skip non-success or
non-dedicated-nuban events, skip references in the in-memory set or
already present in the transactions table (recording them in the
set), otherwise insert a completed credit row and write the snapshot
balance plus the amount, then record the reference in the set and
append an audit row to webhook_events. -/
def pollProcessTransaction (ps : PollState) (uid : Nat)
    (walletSnapshot : ℚ) (e : ChargeEvent) (now : Int) : FundOutcome × PollState :=
  if e.status ≠ "success" then (.skipped, ps)
  else if e.reference ∈ ps.processedRefs then (.skipped, ps)
  else if hasTxn ps.db e.reference then
    (.duplicate, { ps with processedRefs := e.reference :: ps.processedRefs })
  else if e.channel ≠ "dedicated_nuban" then (.skipped, ps)
  else
    let amount := e.amountKobo / 100
    let newBalance := walletSnapshot + amount
    let db1 : DB :=
      { ps.db with
        transactions := ps.db.transactions ++
          [{ userId := uid, txType := .credit, amount := amount, serviceFee := 0,
             reference := e.reference, status := .completed, refunded := false,
             createdAt := now }] }
    let db2 := db1.setBalance uid newBalance
    let db3 := { db2 with webhookEvents := db2.webhookEvents ++ [(e.reference, "charge.success")] }
    (.credited, { db := db3, processedRefs := e.reference :: ps.processedRefs })

def listMaxInt : List Int → Option Int
  | [] => none
  | x :: xs =>
    match listMaxInt xs with
    | none => some x
    | some m => some (max x m)

/-- The single-row query of checkUserTransactions: the created_at of
the most recent credit transaction of the user. -/
def lastCreditTime (txns : List Txn) (uid : Nat) : Option Int :=
  listMaxInt ((txns.filter
    (fun t => t.userId == uid && t.txType == TxnType.credit)).map (fun t => t.createdAt))

def FIVE_MINUTES_MS : Int := 5 * 60 * 1000

/-- The polling window start as the source computes it: the created_at
of the last credit transaction when one exists, otherwise five minutes
before now. -/
def pollFromDate (txns : List Txn) (uid : Nat) (now : Int) : Int :=
  match lastCreditTime txns uid with
  | some t => t
  | none => now - FIVE_MINUTES_MS

/-- The polling window start as the C9 sentence words it: the later of
five minutes ago and the last known credited transaction time. -/
def specPollFromDate (txns : List Txn) (uid : Nat) (now : Int) : Int :=
  match lastCreditTime txns uid with
  | some t => max (now - FIVE_MINUTES_MS) t
  | none => now - FIVE_MINUTES_MS

/-- checkUserTransactions: fetch processor-side transactions of the
customer since pollFromDate and feed each through
pollProcessTransaction, reading the wallet snapshot at the time of
each (sequential) processing step. -/
def checkUserTransactions (fetch : Int → List ChargeEvent) (ps : PollState) (uid : Nat)
    (now : Int) : PollState :=
  (fetch (pollFromDate ps.db.transactions uid now)).foldl
    (fun s e => (pollProcessTransaction s uid (s.db.balances uid) e now).2) ps

/-! ## Transfer failure and success handlers (webhook events) -/

/-- handleTransferFailure: look the transaction up by reference
(whatever its status), re-credit amount plus fee to the wallet of the
owner, and mark the row failed and refunded. Nothing happens when no
row carries the reference. -/
def handleTransferFailure (db : DB) (ref : String) : DB :=
  match findTxn db ref with
  | none => db
  | some tx =>
    let refundAmount := tx.amount + tx.serviceFee
    let db1 := db.setBalance tx.userId (db.balances tx.userId + refundAmount)
    { db1 with
      transactions := updateFirstTxn ref
        (fun t => { t with status := .failed, refunded := true }) db1.transactions }

/-- handleTransferSuccess: look the transaction up by reference; when
found and the owner has a chat channel, set the status to completed
(the metadata merge keeps the refunded tag). The wallet balance is
never touched. -/
def handleTransferSuccess (hasChat : Nat → Bool) (db : DB) (ref : String) : DB :=
  match findTxn db ref with
  | none => db
  | some tx =>
    if hasChat tx.userId then
      { db with
        transactions := updateFirstTxn ref
          (fun t => { t with status := .completed }) db.transactions }
    else db

/-! ## Charge handler of the third webhook draft (handleChargeSuccess)

This variant performs the balance write and the transaction insert as
two separate statements; an insert failure is recorded in
balance_reconciliation and processing continues. The possibility of
the insert failing is threaded as an explicit flag. -/

def handleChargeSuccess (findUser : String → Option Nat) (db : DB) (e : ChargeEvent)
    (txnInsertFails : Bool) (now : Int) : FundOutcome × DB :=
  match e.customerCode with
  | none => (.invalidStructure, db)
  | some c =>
    let amountInNaira := e.amountKobo / 100
    if hasTxn db e.reference then (.duplicate, db)
    else
      match findUser c with
      | none => (.userNotFound, { db with failedFundings := db.failedFundings + 1 })
      | some uid =>
        let newBalance := db.balances uid + amountInNaira
        let db1 := db.setBalance uid newBalance
        if txnInsertFails then
          (.credited, { db1 with reconRows := db1.reconRows + 1 })
        else
          (.credited,
            { db1 with
              transactions := db1.transactions ++
                [{ userId := uid, txType := .credit, amount := amountInNaira,
                   serviceFee := 0, reference := e.reference, status := .completed,
                   refunded := false, createdAt := now }] })

/-! ## Deduplication gate comparison (for C5)

The admission operation as the spec words it: an insert-if-absent on
the webhook_events table keyed by reference and event_type, a
unique-constraint conflict signalling DUPLICATE. -/

inductive AdmitResult
  | firstSeen
  | duplicateRef
deriving Repr, DecidableEq

/-- The admit operation following the C5 wording (kept only for
comparison with the admission the source actually performs). -/
def specAdmit (events : List (String × String)) (ref ty : String) :
    AdmitResult × List (String × String) :=
  if events.any (fun p => p.1 == ref && p.2 == ty) then (.duplicateRef, events)
  else (.firstSeen, events ++ [(ref, ty)])

/-- The duplicate decision the webhook funding path actually takes: a
prior read of the transactions table keyed by reference alone. -/
def webhookAdmitDuplicate (db : DB) (ref : String) : Bool :=
  hasTxn db ref

/-- The duplicate decision of the polling path: the in-memory set,
then a prior read of the transactions table keyed by reference. -/
def pollAdmitDuplicate (ps : PollState) (ref : String) : Bool :=
  decide (ref ∈ ps.processedRefs) || hasTxn ps.db ref

/-! ## Sequences of ledger operations (for the non-negativity claim)

A wallet history is a list of credits (as the funding RPC applies
them) and debit transfers (as processSecureTransfer executes them with
a snapshot read freshly at the step). -/

inductive LedgerOp
  | creditOp (amount : ℚ)
  | debitOp (td : TransferData) (reference : String)

def applyLedgerOp (uid : Nat) (now : Int) (s : BotState) : LedgerOp → BotState
  | .creditOp a => { s with db := s.db.setBalance uid (s.db.balances uid + a) }
  | .debitOp td ref =>
      let row : UserRow :=
        { id := uid, chatId := 0, pin := "", walletBalance := s.db.balances uid }
      (processSecureTransfer s row td ref now).2

def runLedgerOps (uid : Nat) (now : Int) (ops : List LedgerOp) (s : BotState) : BotState :=
  ops.foldl (applyLedgerOp uid now) s

/-- Credits in a history carry non-negative amounts. -/
def opsWellformed (ops : List LedgerOp) : Prop :=
  ∀ op ∈ ops, match op with
    | .creditOp a => 0 ≤ a
    | .debitOp _ _ => True

/-! ## Delivery interleavings of one funding event (for the
idempotency claim): each delivery goes through either the webhook
funding handler or the polling processor, in any order. -/

inductive Path
  | webhook
  | poll
deriving Repr, DecidableEq

def deliverFunding (findUser : String → Option Nat) (verify : String → VerifyResult)
    (uid : Nat) (e : ChargeEvent) (now : Int) : Path → PollState → PollState
  | .webhook, ps => { ps with db := (handleWalletFunding findUser verify ps.db e now).2 }
  | .poll, ps => (pollProcessTransaction ps uid (ps.db.balances uid) e now).2

def runDeliveries (findUser : String → Option Nat) (verify : String → VerifyResult)
    (uid : Nat) (e : ChargeEvent) (now : Int) (paths : List Path) (ps : PollState) :
    PollState :=
  paths.foldl (fun s p => deliverFunding findUser verify uid e now p s) ps

/-- The transaction rows carrying a reference. -/
def refTxns (db : DB) (ref : String) : List Txn :=
  db.transactions.filter (fun t => t.reference == ref)

/-! ## Concrete fixtures used by counterexamples and witnesses -/

def emptyDB : DB :=
  { balances := fun _ => 0, transactions := [], webhookEvents := [],
    failedFundings := 0, reconRows := 0 }

def dbC7 : DB :=
  { emptyDB with
    transactions :=
      [{ userId := 1, txType := .transfer, amount := 600000, serviceFee := 10,
         reference := "T7000001", status := .failed, refunded := true, createdAt := 5 }] }

def dbC7daily : DB :=
  { emptyDB with
    transactions :=
      [{ userId := 1, txType := .transfer, amount := 500000, serviceFee := 10,
         reference := "T7000002", status := .completed, refunded := false, createdAt := 5 }] }

def txnC4 : Txn :=
  { userId := 1, txType := .transfer, amount := 50, serviceFee := 10,
    reference := "TX400001", status := .completed, refunded := false, createdAt := 0 }

def dbC4 : DB :=
  { emptyDB with balances := fun u => if u = 1 then 40 else 0, transactions := [txnC4] }

def stateC3 : BotState :=
  { db := { emptyDB with balances := fun u => if u = 1 then 100 else 0 },
    sessions := [], attempts := [] }

def userC3 : UserRow :=
  { id := 1, chatId := 7, pin := "1234", walletBalance := 100 }

def tdC3 : TransferData :=
  { amount := 50, accountNumber := "0123456789" }

def stateC8 : BotState :=
  { db := emptyDB,
    sessions := [(7, { stype := .transferPin, data := { amount := 200, accountNumber := "0123456789" } })],
    attempts := [] }

def userC8 : UserRow :=
  { id := 1, chatId := 7, pin := "1234", walletBalance := 1000 }

def eventC6 : ChargeEvent :=
  { reference := "REFC6001", amountKobo := 10000, customerCode := some "CUS1",
    channel := "dedicated_nuban", status := "success" }

def findUserC6 : String → Option Nat :=
  fun c => if c = "CUS1" then some 1 else none

def dbC5 : DB :=
  { emptyDB with webhookEvents := [("REFC5001", "charge.success")] }

def eventC5 : ChargeEvent :=
  { reference := "REFC5001", amountKobo := 5000, customerCode := some "CUS5",
    channel := "dedicated_nuban", status := "success" }

def findUserC5 : String → Option Nat :=
  fun c => if c = "CUS5" then some 1 else none

def verifyC5 : String → VerifyResult :=
  fun _ => { status := "success", amountKobo := 5000 }

def txnC9 : Txn :=
  { userId := 1, txType := .credit, amount := 2000, serviceFee := 0,
    reference := "REF90001", status := .completed, refunded := false, createdAt := 0 }

def eventC1 : ChargeEvent :=
  { reference := "REFC1001", amountKobo := 200000, customerCode := some "CUS9",
    channel := "dedicated_nuban", status := "success" }

def findUserC1 : String → Option Nat :=
  fun c => if c = "CUS9" then some 3 else none

def verifyC1 : String → VerifyResult :=
  fun _ => { status := "success", amountKobo := 200000 }

def psC1 : PollState :=
  { db := emptyDB, processedRefs := [] }

/-- The target state of exactly-once crediting for an event: precisely
one transaction row carries the reference (a completed credit of the
event amount), the owning wallet has been incremented by exactly that
amount over the initial balances b0, and every other wallet is
untouched. -/
def C1Inv (uid : Nat) (e : ChargeEvent) (now : Int) (b0 : Nat → ℚ) (ps : PollState) :
    Prop :=
  refTxns ps.db e.reference =
    [{ userId := uid, txType := .credit, amount := e.amountKobo / 100, serviceFee := 0,
       reference := e.reference, status := .completed, refunded := false,
       createdAt := now }] ∧
  ps.db.balances uid = b0 uid + e.amountKobo / 100 ∧
  (∀ u, u ≠ uid → ps.db.balances u = b0 u)

def dbC10 : DB :=
  { emptyDB with
    balances := fun u => if u = 1 then 100 else 0,
    transactions :=
      [{ userId := 1, txType := .transfer, amount := 50, serviceFee := 10,
         reference := "TXA00001", status := .failed, refunded := true, createdAt := 0 }] }

/-! ## Helper lemmas -/

theorem find?_filter_ne {α : Type} (l : List (Nat × α)) (k : Nat) :
    (l.filter (fun p => !(p.1 == k))).find? (fun p => p.1 == k) = none := by
  induction l with
  | nil => rfl
  | cons h t ih =>
    by_cases hk : h.1 = k
    · simp [List.filter_cons, hk, ih]
    · simp [List.filter_cons, hk, ih]

theorem find?_cons_self {α : Type} (l : List (Nat × α)) (k : Nat) (a : α) :
    (((k, a) :: l).find? (fun p => p.1 == k)) = some (k, a) := by
  simp [List.find?_cons]

theorem signatureAccepted_iff (hmac : String → String) (r : WebhookRequest) :
    signatureAccepted hmac r = true ↔
      r.signature = some "REPLAY" ∨ r.signature = some (hmac (bodyString r)) := by
  cases h : r.signature with
  | none => simp [signatureAccepted, h]
  | some s =>
      simp only [signatureAccepted, h, Bool.or_eq_true, beq_iff_eq, Option.some.injEq]
      constructor
      · rintro (rfl | rfl)
        · exact Or.inl rfl
        · exact Or.inr rfl
      · rintro (rfl | rfl)
        · exact Or.inl rfl
        · exact Or.inr rfl

theorem webhookGate_reject_frame (hmac : String → String) (r : WebhookRequest)
    (s : IngressState) (h : signatureAccepted hmac r = false) :
    (webhookGate hmac r s).1 = .rejected400 ∧
    (webhookGate hmac r s).2.webhookEventRefs = s.webhookEventRefs ∧
    (webhookGate hmac r s).2.transactionRefs = s.transactionRefs ∧
    (webhookGate hmac r s).2.securityLogs = s.securityLogs + 1 := by
  simp [webhookGate, h]

/-! ## Claim C2: webhook signature verification -/

/-- Claim C2 counterexample: a request whose signature header is the
literal REPLAY is accepted by the gate and handed to business
processing even though the header does not equal the HMAC of the raw
body, so it is not the case that every request with a mismatching
signature is rejected. -/
theorem C2_counterexample :
    signatureAccepted (fun _ => "0f") ⟨some "REPLAY", some "b", "b"⟩ = true ∧
    (⟨some "REPLAY", some "b", "b"⟩ : WebhookRequest).signature ≠
      some ((fun _ => "0f") (bodyString ⟨some "REPLAY", some "b", "b"⟩)) ∧
    (webhookGate (fun _ => "0f") ⟨some "REPLAY", some "b", "b"⟩ ⟨0, [], []⟩).1 =
      IngressOutcome.acceptedForProcessing := by
  refine ⟨rfl, ?_, rfl⟩
  decide

/-- Claim C2 (amended): the verifier hashes req.rawBody when present,
falling back to the re-serialized JSON body; a request is accepted iff
its signature header equals that HMAC or is the literal REPLAY; every
other request, including one with a missing header, is rejected with
an auth error before business logic, the only side effect being one
security-log entry (webhook_events and transactions untouched). -/
theorem C2_amended (hmac : String → String) (r : WebhookRequest) (s : IngressState) :
    (signatureAccepted hmac r = true ↔
      r.signature = some "REPLAY" ∨ r.signature = some (hmac (bodyString r))) ∧
    (r.signature = none → signatureAccepted hmac r = false) ∧
    (signatureAccepted hmac r = false →
      (webhookGate hmac r s).1 = IngressOutcome.rejected400 ∧
      (webhookGate hmac r s).2.webhookEventRefs = s.webhookEventRefs ∧
      (webhookGate hmac r s).2.transactionRefs = s.transactionRefs ∧
      (webhookGate hmac r s).2.securityLogs = s.securityLogs + 1) := by
  refine ⟨signatureAccepted_iff hmac r, ?_, fun h => webhookGate_reject_frame hmac r s h⟩
  intro h
  simp [signatureAccepted, h]

/-- Claim C2 witness: the amended statement evaluated on a concrete
missing-signature request. -/
theorem C2_witness :
    (webhookGate (fun _ => "0f") ⟨none, some "b", "b"⟩ ⟨0, [], []⟩).1 =
      IngressOutcome.rejected400 ∧
    (webhookGate (fun _ => "0f") ⟨none, some "b", "b"⟩ ⟨0, [], []⟩).2.securityLogs = 1 := by
  have h := C2_amended (fun _ => "0f") ⟨none, some "b", "b"⟩ ⟨0, [], []⟩
  have hrej := h.2.2 (h.2.1 rfl)
  exact ⟨hrej.1, hrej.2.2.2⟩

/-! ## Claim C9: polling window and crediting routine -/

/-- Claim C9 counterexample: with a last credited transaction ten
minutes old, the polling window the source computes starts at that
transaction time (0), not at the later instant five minutes ago
(700000 ms): the window start is not the later of the two. -/
theorem C9_counterexample :
    pollFromDate [txnC9] 1 1000000 = 0 ∧
    specPollFromDate [txnC9] 1 1000000 = 700000 ∧
    pollFromDate [txnC9] 1 1000000 ≠ specPollFromDate [txnC9] 1 1000000 := by
  refine ⟨rfl, ?_, ?_⟩ <;> decide

/-- Claim C9 (amended): each polling cycle fetches processor-side
transactions since the last credited transaction time of the account
when one exists (even when that is earlier than five minutes ago),
otherwise since five minutes ago; each fetched event goes through the
polling processor, whose deduplication is shared with the webhook path
through the transactions table: an event whose reference already has a
transaction row changes neither the tables nor the balances and is
never credited again. -/
theorem C9_amended :
    (∀ txns uid now, pollFromDate txns uid now =
      (lastCreditTime txns uid).getD (now - FIVE_MINUTES_MS)) ∧
    (∀ ps uid snap e now, hasTxn ps.db e.reference = true →
      (pollProcessTransaction ps uid snap e now).2.db = ps.db ∧
      (pollProcessTransaction ps uid snap e now).1 ≠ FundOutcome.credited) := by
  constructor
  · intro txns uid now
    unfold pollFromDate
    cases h : lastCreditTime txns uid <;> simp [h]
  · intro ps uid snap e now h
    unfold pollProcessTransaction
    by_cases h1 : e.status = "success"
    · by_cases h2 : e.reference ∈ ps.processedRefs
      · simp [h1, h2]
      · simp [h1, h2, h]
    · simp [h1]

/-- Claim C9 witness: the amended statement evaluated on the concrete
fixture state and a duplicate event. -/
theorem C9_witness :
    pollFromDate [txnC9] 1 1000000 = (lastCreditTime [txnC9] 1).getD (1000000 - FIVE_MINUTES_MS) ∧
    (pollProcessTransaction ⟨{ emptyDB with transactions := [txnC9] }, []⟩ 1 0
      ⟨"REF90001", 200000, some "CUS9", "dedicated_nuban", "success"⟩ 0).2.db =
      { emptyDB with transactions := [txnC9] } := by
  refine ⟨C9_amended.1 [txnC9] 1 1000000, ?_⟩
  exact (C9_amended.2 ⟨{ emptyDB with transactions := [txnC9] }, []⟩ 1 0
    ⟨"REF90001", 200000, some "CUS9", "dedicated_nuban", "success"⟩ 0 (by decide)).1

/-! ## Claim C7: spend limits -/

theorem checkTransactionLimits_allowed_iff (db : DB) (uid : Nat) (t : Int) (a : ℚ) :
    checkTransactionLimits db uid t a = LimitDecision.allowed ↔
      MIN_TRANSACTION ≤ a ∧ a ≤ SINGLE_TRANSACTION ∧
      dailyTotal db uid t + a ≤ DAILY_LIMIT := by
  unfold checkTransactionLimits
  split_ifs with h1 h2 h3
  · constructor
    · intro hc; exact absurd hc (by decide)
    · rintro ⟨hm, -, -⟩; exact absurd h1 (not_lt.2 hm)
  · constructor
    · intro hc; exact absurd hc (by decide)
    · rintro ⟨-, hs, -⟩; exact absurd h2 (not_lt.2 hs)
  · constructor
    · intro hc; exact absurd hc (by decide)
    · rintro ⟨-, -, hd⟩; exact absurd h3 (not_lt.2 hd)
  · exact ⟨fun _ => ⟨le_of_not_lt h1, le_of_not_lt h2, le_of_not_lt h3⟩, fun _ => rfl⟩

theorem checkTransactionLimits_aboveSingle (db : DB) (uid : Nat) (t : Int) (a : ℚ)
    (h1 : ¬a < MIN_TRANSACTION) (h2 : SINGLE_TRANSACTION < a) :
    checkTransactionLimits db uid t a = LimitDecision.aboveSingleLimit := by
  simp [checkTransactionLimits, h1, h2]

theorem checkTransactionLimits_daily (db : DB) (uid : Nat) (t : Int) (a : ℚ)
    (h1 : ¬a < MIN_TRANSACTION) (h2 : ¬SINGLE_TRANSACTION < a)
    (h3 : DAILY_LIMIT < dailyTotal db uid t + a) :
    checkTransactionLimits db uid t a = LimitDecision.dailyLimitExceeded := by
  simp [checkTransactionLimits, h1, h2, h3]

theorem dailyTotal_emptyDB (uid : Nat) (t : Int) : dailyTotal emptyDB uid t = 0 := by
  simp [dailyTotal, dailyTransferTxns, emptyDB, sumAmounts]

theorem dailyTotal_dbC7 : dailyTotal dbC7 1 0 = 600000 := by
  simp [dailyTotal, dailyTransferTxns, dbC7, emptyDB, sumAmounts]

theorem dailyTotal_dbC7daily : dailyTotal dbC7daily 1 0 = 500000 := by
  simp [dailyTotal, dailyTransferTxns, dbC7daily, emptyDB, sumAmounts]

theorem completedDailyTotal_dbC7 : completedDailyTotal dbC7 1 0 = 0 := by
  simp [completedDailyTotal, dailyTransferTxns, dbC7, emptyDB, sumAmounts]

/-- Claim C7 counterexample: with one FAILED transfer of 600000 today,
the sum of the completed transfers of today is 0, so the claimed gate
admits a 500000 transfer; the gate the source implements sums all
transfer rows of today regardless of status and rejects it with the
daily-limit reason. -/
theorem C7_counterexample :
    specLimitAllowed dbC7 1 0 500000 ∧
    checkTransactionLimits dbC7 1 0 500000 = LimitDecision.dailyLimitExceeded := by
  constructor
  · unfold specLimitAllowed
    rw [completedDailyTotal_dbC7]
    norm_num [MIN_TRANSACTION, SINGLE_TRANSACTION, DAILY_LIMIT]
  · exact checkTransactionLimits_daily dbC7 1 0 500000
      (by norm_num [MIN_TRANSACTION]) (by norm_num [SINGLE_TRANSACTION])
      (by rw [dailyTotal_dbC7]; norm_num [DAILY_LIMIT])

/-- Claim C7 (amended): the gate rejects a proposed transfer iff the
amount is below 100, above 500000, or the amount plus the sum of ALL
transfer rows of today (any status, failed ones included) exceeds
1000000; a transfer of exactly 500000 passes, 500000.01 is rejected,
and one landing the daily total exactly on the limit is accepted; the
check runs once, in the confirmation step immediately before PIN
collection (the session advances to the PIN state iff the check
allows), and it is not re-evaluated at execution: the outcome of
processSecureTransfer is independent of the stored transaction
history. -/
theorem C7_amended :
    (∀ db uid t a, checkTransactionLimits db uid t a = LimitDecision.allowed ↔
      MIN_TRANSACTION ≤ a ∧ a ≤ SINGLE_TRANSACTION ∧
      dailyTotal db uid t + a ≤ DAILY_LIMIT) ∧
    (checkTransactionLimits emptyDB 1 0 500000 = LimitDecision.allowed ∧
     checkTransactionLimits emptyDB 1 0 (500000 + 1 / 100) = LimitDecision.aboveSingleLimit ∧
     checkTransactionLimits dbC7daily 1 0 500000 = LimitDecision.allowed) ∧
    (∀ s user isConfirmed sess chatId t,
      sess.stype = SessionType.confirmTransfer → isConfirmed = true →
      ((handleConfirmation s user isConfirmed sess chatId t).1 = ConfirmOutcome.pinRequested ↔
        checkTransactionLimits s.db user.id t sess.data.amount = LimitDecision.allowed)) ∧
    (∀ s1 s2 user td ref now,
      (processSecureTransfer s1 user td ref now).1 =
        (processSecureTransfer s2 user td ref now).1) := by
  refine ⟨checkTransactionLimits_allowed_iff, ⟨?_, ?_, ?_⟩, ?_, ?_⟩
  · exact (checkTransactionLimits_allowed_iff emptyDB 1 0 500000).2
      ⟨by norm_num [MIN_TRANSACTION], by norm_num [SINGLE_TRANSACTION],
       by rw [dailyTotal_emptyDB]; norm_num [DAILY_LIMIT]⟩
  · exact checkTransactionLimits_aboveSingle emptyDB 1 0 (500000 + 1 / 100)
      (by norm_num [MIN_TRANSACTION]) (by norm_num [SINGLE_TRANSACTION])
  · exact (checkTransactionLimits_allowed_iff dbC7daily 1 0 500000).2
      ⟨by norm_num [MIN_TRANSACTION], by norm_num [SINGLE_TRANSACTION],
       by rw [dailyTotal_dbC7daily]; norm_num [DAILY_LIMIT]⟩
  · intro s user isC sess chatId t hs hc
    subst hc
    simp only [handleConfirmation, hs, if_pos, if_true]
    cases h : checkTransactionLimits s.db user.id t sess.data.amount <;> simp [h]
  · intro s1 s2 user td ref now
    by_cases h : user.walletBalance < td.amount + SERVICE_FEE <;>
      simp [processSecureTransfer, h]

/-- Claim C7 witness: the amended statement evaluated on a concrete
confirmation step and the exact-limit boundary. -/
theorem C7_witness :
    (handleConfirmation ⟨emptyDB, [], []⟩ ⟨1, 7, "1234", 1000⟩ true
      ⟨SessionType.confirmTransfer, ⟨200, "0123456789"⟩⟩ 7 0).1 =
      ConfirmOutcome.pinRequested ∧
    checkTransactionLimits emptyDB 1 0 500000 = LimitDecision.allowed := by
  constructor
  · refine (C7_amended.2.2.1 ⟨emptyDB, [], []⟩ ⟨1, 7, "1234", 1000⟩ true
      ⟨SessionType.confirmTransfer, ⟨200, "0123456789"⟩⟩ 7 0 rfl rfl).2 ?_
    exact (checkTransactionLimits_allowed_iff emptyDB 1 0 200).2
      ⟨by norm_num [MIN_TRANSACTION], by norm_num [SINGLE_TRANSACTION],
       by rw [dailyTotal_emptyDB]; norm_num [DAILY_LIMIT]⟩
  · exact C7_amended.2.1.1

/-! ## Claim C8: PIN failures and lockout -/

theorem lookupSession_deleteSession (s : BotState) (c : Nat) :
    lookupSession (deleteSession s c) c = none := by
  simp [lookupSession, deleteSession, find?_filter_ne]

theorem getAttempts_setAttempts (s : BotState) (uid : Nat) (a : Attempts) :
    getAttempts (setAttempts s uid a) uid = a := by
  simp [getAttempts, setAttempts, find?_cons_self]

theorem getAttempts_clearFailedAttempts (s : BotState) (uid : Nat) :
    getAttempts (clearFailedAttempts s uid) uid = ⟨0, 0⟩ := by
  show ((((s.attempts.filter (fun p => !(p.1 == uid))).find?
    (fun p => p.1 == uid))).map (fun p => p.2)).getD ⟨0, 0⟩ = ⟨0, 0⟩
  rw [find?_filter_ne]
  rfl

theorem getAttempts_recordFailedAttempt (now : Int) (s : BotState) (uid : Nat) :
    getAttempts (recordFailedAttempt now s uid) uid =
      ⟨(getAttempts s uid).count + 1,
       if MAX_FAILED_ATTEMPTS ≤ (getAttempts s uid).count + 1 then now + LOCKOUT_DURATION
       else (getAttempts s uid).lockUntil⟩ := by
  simp [recordFailedAttempt, getAttempts_setAttempts]

theorem isUserLockedOut_setAttempts (t : Int) (s : BotState) (uid : Nat) (a : Attempts) :
    isUserLockedOut t (setAttempts s uid a) uid =
      (decide (MAX_FAILED_ATTEMPTS ≤ a.count) && decide (t < a.lockUntil)) := by
  simp [isUserLockedOut, setAttempts, find?_cons_self]

theorem isUserLockedOut_deleteSession (t : Int) (s : BotState) (c uid : Nat) :
    isUserLockedOut t (deleteSession s c) uid = isUserLockedOut t s uid := rfl

theorem getAttempts_deleteSession (s : BotState) (c uid : Nat) :
    getAttempts (deleteSession s c) uid = getAttempts s uid := rfl

theorem processSecureTransfer_attempts (s : BotState) (u : UserRow) (td : TransferData)
    (ref : String) (now : Int) :
    (processSecureTransfer s u td ref now).2.attempts = s.attempts := by
  by_cases h : u.walletBalance < td.amount + SERVICE_FEE <;>
    simp [processSecureTransfer, h]

theorem isUserLockedOut_recordFailedAttempt (t now : Int) (s : BotState) (uid : Nat) :
    isUserLockedOut t (recordFailedAttempt now s uid) uid =
      (decide (MAX_FAILED_ATTEMPTS ≤ (getAttempts s uid).count + 1) &&
       decide (t < (if MAX_FAILED_ATTEMPTS ≤ (getAttempts s uid).count + 1
                    then now + LOCKOUT_DURATION else (getAttempts s uid).lockUntil))) := by
  simp only [recordFailedAttempt, isUserLockedOut_setAttempts]

theorem handlePin_wrong_state (now : Int) (s : BotState) (user : UserRow) (pin : String)
    (sess : Session) (chatId : Nat) (ref : String)
    (hs : sess.stype = SessionType.transferPin) (hp : pin ≠ user.pin) :
    (handlePinVerification now s user pin sess chatId ref).2 =
      deleteSession (recordFailedAttempt now s user.id) chatId := by
  simp only [handlePinVerification, hs, hp, ne_eq, not_true_eq_false, if_false,
    not_false_eq_true, if_true]
  split <;> rfl

theorem handlePin_right_state (now : Int) (s : BotState) (user : UserRow)
    (sess : Session) (chatId : Nat) (ref : String)
    (hs : sess.stype = SessionType.transferPin) :
    (handlePinVerification now s user user.pin sess chatId ref).2 =
      deleteSession
        (processSecureTransfer (clearFailedAttempts s user.id) user sess.data ref now).2
        chatId := by
  simp [handlePinVerification, hs]

/-- Claim C8 counterexample: on the first wrong PIN (failure counter 1,
below the threshold of 5) the transfer session is deleted, not kept in
the PIN-awaiting state: afterwards no session exists for the chat. -/
theorem C8_counterexample :
    (getAttempts (handlePinVerification 0 stateC8 userC8 "9999"
      ⟨SessionType.transferPin, ⟨200, "0123456789"⟩⟩ 7 "QW8").2 1).count = 1 ∧
    (getAttempts (handlePinVerification 0 stateC8 userC8 "9999"
      ⟨SessionType.transferPin, ⟨200, "0123456789"⟩⟩ 7 "QW8").2 1).count
        < MAX_FAILED_ATTEMPTS ∧
    lookupSession (handlePinVerification 0 stateC8 userC8 "9999"
      ⟨SessionType.transferPin, ⟨200, "0123456789"⟩⟩ 7 "QW8").2 7 = none ∧
    (handlePinVerification 0 stateC8 userC8 "9999"
      ⟨SessionType.transferPin, ⟨200, "0123456789"⟩⟩ 7 "QW8").1 = PinOutcome.invalidPin := by
  refine ⟨?_, ?_, ?_, ?_⟩ <;> decide

/-- Claim C8 (amended): an invalid PIN increments the per-user failure
counter and deletes the transfer session immediately, whatever the
counter (the session does not stay awaiting a PIN); when the counter
reaches the threshold (5) the lockout timestamp is set to now plus 15
minutes and, until it elapses, the user is locked out and the message
entry gate rejects every action; once the stored lockout timestamp
has passed the lockout reads false; a correct PIN resets the counter
to zero (the entry is deleted) and also ends the session. -/
theorem C8_amended (now : Int) (s : BotState) (user : UserRow) (pin : String)
    (sess : Session) (chatId : Nat) (ref : String)
    (hs : sess.stype = SessionType.transferPin) :
    (pin ≠ user.pin →
      (getAttempts (handlePinVerification now s user pin sess chatId ref).2 user.id).count =
        (getAttempts s user.id).count + 1 ∧
      lookupSession (handlePinVerification now s user pin sess chatId ref).2 chatId = none ∧
      (MAX_FAILED_ATTEMPTS ≤ (getAttempts s user.id).count + 1 →
        (getAttempts (handlePinVerification now s user pin sess chatId ref).2
            user.id).lockUntil = now + LOCKOUT_DURATION ∧
        ∀ t, t < now + LOCKOUT_DURATION →
          isUserLockedOut t (handlePinVerification now s user pin sess chatId ref).2
            user.id = true ∧
          messageEntryAllowed t (handlePinVerification now s user pin sess chatId ref).2
            user.id = false) ∧
      (∀ t, (getAttempts (handlePinVerification now s user pin sess chatId ref).2
          user.id).lockUntil ≤ t →
        isUserLockedOut t (handlePinVerification now s user pin sess chatId ref).2
          user.id = false)) ∧
    (pin = user.pin →
      getAttempts (handlePinVerification now s user pin sess chatId ref).2 user.id = ⟨0, 0⟩ ∧
      lookupSession (handlePinVerification now s user pin sess chatId ref).2 chatId = none) := by
  constructor
  · intro hp
    rw [handlePin_wrong_state now s user pin sess chatId ref hs hp]
    rw [getAttempts_deleteSession, getAttempts_recordFailedAttempt]
    refine ⟨rfl, lookupSession_deleteSession _ _, ?_, ?_⟩
    · intro hthr
      constructor
      · simp [hthr]
      · intro t ht
        have hl : isUserLockedOut t
            (deleteSession (recordFailedAttempt now s user.id) chatId) user.id = true := by
          rw [isUserLockedOut_deleteSession, isUserLockedOut_recordFailedAttempt]
          simp [hthr, ht]
        refine ⟨hl, ?_⟩
        unfold messageEntryAllowed
        rw [hl]
        rfl
    · intro t ht
      rw [isUserLockedOut_deleteSession, isUserLockedOut_recordFailedAttempt]
      have ht2 : ¬(t < (if MAX_FAILED_ATTEMPTS ≤ (getAttempts s user.id).count + 1
          then now + LOCKOUT_DURATION else (getAttempts s user.id).lockUntil)) := by
        exact not_lt.2 ht
      simp [ht2]
  · intro hp
    subst hp
    rw [handlePin_right_state now s user sess chatId ref hs]
    constructor
    · rw [getAttempts_deleteSession]
      have h1 : getAttempts
          (processSecureTransfer (clearFailedAttempts s user.id) user sess.data ref now).2
          user.id =
          getAttempts (clearFailedAttempts s user.id) user.id := by
        unfold getAttempts
        rw [processSecureTransfer_attempts]
      rw [h1, getAttempts_clearFailedAttempts]
    · exact lookupSession_deleteSession _ _

/-- Claim C8 witness: the amended statement evaluated on a concrete
wrong-PIN step at the lockout threshold and a concrete correct-PIN
step. -/
theorem C8_witness :
    (getAttempts (handlePinVerification 0
      ⟨emptyDB, [(7, ⟨SessionType.transferPin, ⟨200, "0123456789"⟩⟩)], [(1, ⟨4, 0⟩)]⟩
      userC8 "9999" ⟨SessionType.transferPin, ⟨200, "0123456789"⟩⟩ 7 "QW8").2 1).lockUntil =
      0 + LOCKOUT_DURATION ∧
    getAttempts (handlePinVerification 0 stateC8 userC8 "1234"
      ⟨SessionType.transferPin, ⟨200, "0123456789"⟩⟩ 7 "QW8").2 1 = ⟨0, 0⟩ := by
  constructor
  · exact (((C8_amended 0
      ⟨emptyDB, [(7, ⟨SessionType.transferPin, ⟨200, "0123456789"⟩⟩)], [(1, ⟨4, 0⟩)]⟩
      userC8 "9999" ⟨SessionType.transferPin, ⟨200, "0123456789"⟩⟩ 7 "QW8" rfl).1
      (by decide)).2.2.1 (by decide)).1
  · exact ((C8_amended 0 stateC8 userC8 "1234"
      ⟨SessionType.transferPin, ⟨200, "0123456789"⟩⟩ 7 "QW8" rfl).2 rfl).1

/-! ## Claim C3: balance check and non-negativity -/

/-- Claim C3 counterexample: the debit check compares against the user
row snapshot, not atomically with the write. After a first transfer
commits, the wallet holds 40 while a second handler still holds the
snapshot of 100 taken before that commit; although 40 is below the 60
required (amount 50 plus fee 10), the second debit is not rejected and
completes. -/
theorem C3_counterexample :
    (processSecureTransfer stateC3 userC3 tdC3 "QW1" 0).2.db.balances 1 = 40 ∧
    (processSecureTransfer stateC3 userC3 tdC3 "QW1" 0).2.db.balances 1 <
      tdC3.amount + SERVICE_FEE ∧
    (processSecureTransfer (processSecureTransfer stateC3 userC3 tdC3 "QW1" 0).2
      userC3 tdC3 "QW2" 1).1 = TransferOutcome.completedTransfer := by
  have h1 : ¬(userC3.walletBalance < tdC3.amount + SERVICE_FEE) := by
    norm_num [userC3, tdC3, SERVICE_FEE]
  have hbal : (processSecureTransfer stateC3 userC3 tdC3 "QW1" 0).2.db.balances 1 = 40 := by
    norm_num [processSecureTransfer, h1, DB.setBalance, stateC3, userC3, tdC3,
      SERVICE_FEE, emptyDB]
  refine ⟨hbal, ?_, ?_⟩
  · rw [hbal]; norm_num [tdC3, SERVICE_FEE]
  · simp [processSecureTransfer, h1]

theorem applyLedgerOp_nonneg (uid : Nat) (now : Int) (s : BotState) (op : LedgerOp)
    (hop : match op with | .creditOp a => 0 ≤ a | .debitOp _ _ => True)
    (hnn : ∀ u, 0 ≤ s.db.balances u) :
    ∀ u, 0 ≤ (applyLedgerOp uid now s op).db.balances u := by
  cases op with
  | creditOp a =>
    intro u
    simp only [applyLedgerOp, DB.setBalance]
    by_cases hu : u = uid
    · simp only [hu, if_pos rfl]
      exact add_nonneg (hnn uid) hop
    · simp only [if_neg hu]
      exact hnn u
  | debitOp td ref =>
    intro u
    simp only [applyLedgerOp]
    by_cases h : s.db.balances uid < td.amount + SERVICE_FEE
    · simp only [processSecureTransfer, if_pos h]
      exact hnn u
    · simp only [processSecureTransfer, if_neg h, DB.setBalance]
      by_cases hu : u = uid
      · simp only [hu, if_pos rfl]
        exact sub_nonneg.2 (not_lt.1 h)
      · simp only [if_neg hu]
        exact hnn u

theorem runLedgerOps_nonneg (uid : Nat) (now : Int) (ops : List LedgerOp) :
    ∀ s : BotState, opsWellformed ops → (∀ u, 0 ≤ s.db.balances u) →
      ∀ u, 0 ≤ (runLedgerOps uid now ops s).db.balances u := by
  induction ops with
  | nil => intro s _ hnn u; exact hnn u
  | cons op rest ih =>
    intro s hwf hnn u
    have hop := hwf op (List.mem_cons_self op rest)
    have hrest : opsWellformed rest := fun o ho => hwf o (List.mem_cons_of_mem op ho)
    have hnn2 := applyLedgerOp_nonneg uid now s op hop hnn
    show 0 ≤ (runLedgerOps uid now rest (applyLedgerOp uid now s op)).db.balances u
    exact ih (applyLedgerOp uid now s op) hrest hnn2 u

/-- Claim C3 (amended): the debit gate compares amount plus fee
against the wallet-balance snapshot read when the user message
arrived, not atomically with the write; whenever that snapshot is
fresh (equal to the stored balance), a debit with balance below amount
plus fee is rejected with the insufficient-balance error and no state
change, a successful debit deducts exactly amount plus fee (never a
clamped amount) leaving a non-negative balance, and any sequence of
credits and fresh-snapshot debits keeps every balance non-negative;
with a stale snapshot the guarantee fails (see the counterexample). -/
theorem C3_amended :
    (∀ s user td ref now, user.walletBalance = s.db.balances user.id →
      ((processSecureTransfer s user td ref now).1 = TransferOutcome.insufficientBalance ↔
        s.db.balances user.id < td.amount + SERVICE_FEE) ∧
      ((processSecureTransfer s user td ref now).1 = TransferOutcome.insufficientBalance →
        (processSecureTransfer s user td ref now).2 = s) ∧
      ((processSecureTransfer s user td ref now).1 = TransferOutcome.completedTransfer →
        (processSecureTransfer s user td ref now).2.db.balances user.id =
          s.db.balances user.id - (td.amount + SERVICE_FEE) ∧
        0 ≤ (processSecureTransfer s user td ref now).2.db.balances user.id ∧
        (processSecureTransfer s user td ref now).2.db.transactions =
          s.db.transactions ++
            [{ userId := user.id, txType := .transfer, amount := td.amount,
               serviceFee := SERVICE_FEE, reference := ref, status := .completed,
               refunded := false, createdAt := now }])) ∧
    (∀ uid now ops s, opsWellformed ops → (∀ u, 0 ≤ s.db.balances u) →
      ∀ u, 0 ≤ (runLedgerOps uid now ops s).db.balances u) := by
  constructor
  · intro s user td ref now hsnap
    by_cases h : user.walletBalance < td.amount + SERVICE_FEE
    · have h2 : s.db.balances user.id < td.amount + SERVICE_FEE := hsnap ▸ h
      refine ⟨⟨fun _ => h2, fun _ => by simp [processSecureTransfer, h]⟩,
        fun _ => by simp [processSecureTransfer, h], fun hc => ?_⟩
      simp [processSecureTransfer, h] at hc
    · have h2 : ¬(s.db.balances user.id < td.amount + SERVICE_FEE) := hsnap ▸ h
      have heq : (processSecureTransfer s user td ref now).2.db.balances user.id =
          s.db.balances user.id - (td.amount + SERVICE_FEE) := by
        simp [processSecureTransfer, hsnap, h2, DB.setBalance]
      refine ⟨⟨fun hc => ?_, fun hl => absurd hl h2⟩, fun hc => ?_, fun _ => ?_⟩
      · simp [processSecureTransfer, h] at hc
      · simp [processSecureTransfer, h] at hc
      · refine ⟨heq, ?_, by simp [processSecureTransfer, h, DB.setBalance]⟩
        rw [heq]
        exact sub_nonneg.2 (not_lt.1 h2)
  · intro uid now ops s hwf hnn
    exact runLedgerOps_nonneg uid now ops s hwf hnn

/-- Claim C3 witness: the amended statement evaluated on a concrete
fresh-snapshot transfer and a concrete credit-then-debit history. -/
theorem C3_witness :
    (processSecureTransfer stateC3 userC3 tdC3 "QW1" 0).2.db.balances 1 =
      stateC3.db.balances 1 - (tdC3.amount + SERVICE_FEE) ∧
    0 ≤ (runLedgerOps 1 0 [LedgerOp.creditOp 5, LedgerOp.debitOp tdC3 "QW9"]
      stateC3).db.balances 1 := by
  constructor
  · have hfresh : userC3.walletBalance = stateC3.db.balances userC3.id := by
      norm_num [userC3, stateC3, emptyDB]
    have hcomp : (processSecureTransfer stateC3 userC3 tdC3 "QW1" 0).1 =
        TransferOutcome.completedTransfer := by
      have h1 : ¬(userC3.walletBalance < tdC3.amount + SERVICE_FEE) := by
        norm_num [userC3, tdC3, SERVICE_FEE]
      simp [processSecureTransfer, h1]
    exact ((C3_amended.1 stateC3 userC3 tdC3 "QW1" 0 hfresh).2.2 hcomp).1
  · refine C3_amended.2 1 0 [LedgerOp.creditOp 5, LedgerOp.debitOp tdC3 "QW9"] stateC3
      ?_ ?_ 1
    · intro op hop
      rcases List.mem_cons.1 hop with rfl | hop2
      · norm_num
      · rcases List.mem_cons.1 hop2 with rfl | hop3
        · trivial
        · cases hop3
    · intro u
      by_cases hu : u = 1 <;> norm_num [stateC3, emptyDB, hu]

/-! ## Claim C4: refund on transfer failure -/

theorem find?_updateFirstTxn (ref : String) (f : Txn → Txn)
    (hf : ∀ t, (f t).reference = t.reference) (l : List Txn) :
    (updateFirstTxn ref f l).find? (fun t => t.reference == ref) =
      (l.find? (fun t => t.reference == ref)).map f := by
  induction l with
  | nil => rfl
  | cons t ts ih =>
    by_cases h : t.reference = ref
    · have hft : (f t).reference = ref := by rw [hf t, h]
      simp [updateFirstTxn, h, List.find?_cons, hft]
    · simp [updateFirstTxn, h, List.find?_cons, ih]

theorem handleTransferFailure_found (db : DB) (ref : String) (tx : Txn)
    (h : findTxn db ref = some tx) :
    (handleTransferFailure db ref).balances tx.userId =
      db.balances tx.userId + (tx.amount + tx.serviceFee) ∧
    findTxn (handleTransferFailure db ref) ref =
      some { tx with status := TxnStatus.failed, refunded := true } ∧
    (∀ u, u ≠ tx.userId → (handleTransferFailure db ref).balances u = db.balances u) := by
  refine ⟨?_, ?_, ?_⟩
  · simp [handleTransferFailure, h, DB.setBalance]
  · unfold findTxn
    simp only [handleTransferFailure, h, DB.setBalance]
    rw [find?_updateFirstTxn ref
      (fun t => { t with status := TxnStatus.failed, refunded := true }) (fun t => rfl)]
    unfold findTxn at h
    rw [h]
    rfl
  · intro u hu
    simp [handleTransferFailure, h, DB.setBalance, hu]

/-- Claim C4 counterexample: delivering the same transfer.failed
notification twice refunds twice. Starting from the post-debit balance
40 (pre-debit 100, amount 50, fee 10), the first delivery restores
100, and the second delivery credits another 60, ending at 160 — not
the pre-debit value. -/
theorem C4_counterexample :
    (handleTransferFailure (handleTransferFailure dbC4 "TX400001") "TX400001").balances 1 =
      160 ∧
    (handleTransferFailure (handleTransferFailure dbC4 "TX400001") "TX400001").balances 1 ≠
      100 := by
  have h : findTxn dbC4 "TX400001" = some txnC4 := rfl
  obtain ⟨h1, h2, -⟩ := handleTransferFailure_found dbC4 "TX400001" txnC4 h
  obtain ⟨h1b, -, -⟩ := handleTransferFailure_found (handleTransferFailure dbC4 "TX400001")
    "TX400001" { txnC4 with status := TxnStatus.failed, refunded := true } h2
  have e1 : (handleTransferFailure dbC4 "TX400001").balances 1 =
      dbC4.balances 1 + (txnC4.amount + txnC4.serviceFee) := h1
  have e2 : (handleTransferFailure (handleTransferFailure dbC4 "TX400001")
      "TX400001").balances 1 =
      (handleTransferFailure dbC4 "TX400001").balances 1 +
        (txnC4.amount + txnC4.serviceFee) := h1b
  have e3 : dbC4.balances 1 = 40 := rfl
  have hval : (handleTransferFailure (handleTransferFailure dbC4 "TX400001")
      "TX400001").balances 1 = 160 := by
    rw [e2, e1, e3]
    norm_num [txnC4]
  exact ⟨hval, by rw [hval]; norm_num⟩

/-- Claim C4 (amended): a completed debit followed by one
transfer.failed delivery restores the pre-debit balance (amount plus
fee re-credited) and marks the transaction failed and refunded;
however the handler has no idempotency guard, so each further delivery
of the same failure notification re-credits amount plus fee again: a
second delivery leaves the balance amount plus fee above its pre-debit
value. -/
theorem C4_amended (db : DB) (ref : String) (tx : Txn)
    (h : findTxn db ref = some tx) :
    (handleTransferFailure db ref).balances tx.userId =
      db.balances tx.userId + (tx.amount + tx.serviceFee) ∧
    findTxn (handleTransferFailure db ref) ref =
      some { tx with status := TxnStatus.failed, refunded := true } ∧
    (∀ u, u ≠ tx.userId → (handleTransferFailure db ref).balances u = db.balances u) ∧
    (handleTransferFailure (handleTransferFailure db ref) ref).balances tx.userId =
      db.balances tx.userId + 2 * (tx.amount + tx.serviceFee) := by
  obtain ⟨h1, h2, h3⟩ := handleTransferFailure_found db ref tx h
  refine ⟨h1, h2, h3, ?_⟩
  obtain ⟨h1b, -, -⟩ := handleTransferFailure_found (handleTransferFailure db ref) ref
    { tx with status := TxnStatus.failed, refunded := true } h2
  have h1c : (handleTransferFailure (handleTransferFailure db ref) ref).balances tx.userId =
      (handleTransferFailure db ref).balances tx.userId + (tx.amount + tx.serviceFee) := h1b
  rw [h1c, h1]
  ring

/-- Claim C4 witness: the amended statement evaluated on the concrete
post-debit fixture. -/
theorem C4_witness :
    findTxn (handleTransferFailure dbC4 "TX400001") "TX400001" =
      some { txnC4 with status := TxnStatus.failed, refunded := true } ∧
    (handleTransferFailure (handleTransferFailure dbC4 "TX400001") "TX400001").balances 1 =
      dbC4.balances 1 + 2 * (txnC4.amount + txnC4.serviceFee) := by
  have h := C4_amended dbC4 "TX400001" txnC4 rfl
  exact ⟨h.2.1, h.2.2.2⟩

/-! ## Claim C10: transfer.success handler frame -/

/-- Claim C10: the transfer.success handler never modifies any wallet
balance; when a transaction with the reference exists and its owner
has a chat channel, the row status is set to completed whatever its
prior status was (the refunded tag and the refund credit on the wallet
remain); when no row carries the reference, nothing changes. -/
theorem C10_transferSuccess_frame (hasChat : Nat → Bool) (db : DB) (ref : String) :
    (handleTransferSuccess hasChat db ref).balances = db.balances ∧
    (findTxn db ref = none → handleTransferSuccess hasChat db ref = db) ∧
    (∀ tx, findTxn db ref = some tx → hasChat tx.userId = true →
      findTxn (handleTransferSuccess hasChat db ref) ref =
        some { tx with status := TxnStatus.completed }) := by
  refine ⟨?_, ?_, ?_⟩
  · cases h : findTxn db ref with
    | none => simp [handleTransferSuccess, h]
    | some tx => by_cases hc : hasChat tx.userId <;> simp [handleTransferSuccess, h, hc]
  · intro h; simp [handleTransferSuccess, h]
  · intro tx h hc
    unfold findTxn
    simp only [handleTransferSuccess, h, hc, if_true]
    rw [find?_updateFirstTxn ref
      (fun t => { t with status := TxnStatus.completed }) (fun t => rfl)]
    unfold findTxn at h
    rw [h]
    rfl

/-- Claim C10 witness: on a transaction already failed and refunded,
the handler flips the status back to completed, keeps the refunded
tag, and leaves every balance (the refund credit included)
unchanged. -/
theorem C10_witness :
    (handleTransferSuccess (fun _ => true) dbC10 "TXA00001").balances = dbC10.balances ∧
    findTxn (handleTransferSuccess (fun _ => true) dbC10 "TXA00001") "TXA00001" =
      some { userId := 1, txType := TxnType.transfer, amount := 50, serviceFee := 10,
             reference := "TXA00001", status := TxnStatus.completed, refunded := true,
             createdAt := 0 } := by
  refine ⟨(C10_transferSuccess_frame (fun _ => true) dbC10 "TXA00001").1, ?_⟩
  exact (C10_transferSuccess_frame (fun _ => true) dbC10 "TXA00001").2.2
    ⟨1, TxnType.transfer, 50, 10, "TXA00001", TxnStatus.failed, true, 0⟩ rfl rfl

/-! ## Claim C6: behaviour when the transaction insert fails -/

/-- Claim C6 counterexample: when the balance update succeeds and the
transaction insert then fails, the handler does NOT roll the balance
back (it stays credited at 100, not the pre-credit 0), raises no
error, and routes nothing to failed_fundings; it only inserts a
balance_reconciliation row and continues. -/
theorem C6_counterexample :
    (handleChargeSuccess findUserC6 emptyDB eventC6 true 0).2.balances 1 = 100 ∧
    (handleChargeSuccess findUserC6 emptyDB eventC6 true 0).2.balances 1 ≠
      emptyDB.balances 1 ∧
    (handleChargeSuccess findUserC6 emptyDB eventC6 true 0).2.failedFundings = 0 ∧
    (handleChargeSuccess findUserC6 emptyDB eventC6 true 0).2.reconRows = 1 ∧
    (handleChargeSuccess findUserC6 emptyDB eventC6 true 0).2.transactions = [] := by
  refine ⟨?_, ?_, ?_, ?_, ?_⟩ <;>
    norm_num [handleChargeSuccess, findUserC6, eventC6, emptyDB, hasTxn, DB.setBalance]

/-- Claim C6 (amended): when the balance update succeeds and the
transaction insert fails during a credit, the wallet is left credited
with the full amount (no compensating rollback), no transaction row is
written, a balance_reconciliation row (reconciled false) is recorded,
nothing is routed to failed_fundings, no error is raised and the
handler reports the credit as processed. -/
theorem C6_amended (findUser : String → Option Nat) (db : DB) (e : ChargeEvent)
    (uid : Nat) (c : String) (now : Int)
    (hcc : e.customerCode = some c) (hfu : findUser c = some uid)
    (hnt : hasTxn db e.reference = false) :
    (handleChargeSuccess findUser db e true now).1 = FundOutcome.credited ∧
    (handleChargeSuccess findUser db e true now).2.balances uid =
      db.balances uid + e.amountKobo / 100 ∧
    (handleChargeSuccess findUser db e true now).2.transactions = db.transactions ∧
    (handleChargeSuccess findUser db e true now).2.reconRows = db.reconRows + 1 ∧
    (handleChargeSuccess findUser db e true now).2.failedFundings = db.failedFundings ∧
    (handleChargeSuccess findUser db e true now).2.webhookEvents = db.webhookEvents := by
  simp [handleChargeSuccess, hcc, hfu, hnt, DB.setBalance]

/-- Claim C6 witness: the amended statement evaluated on the concrete
fixture event. -/
theorem C6_witness :
    (handleChargeSuccess findUserC6 emptyDB eventC6 true 0).1 = FundOutcome.credited ∧
    (handleChargeSuccess findUserC6 emptyDB eventC6 true 0).2.reconRows =
      emptyDB.reconRows + 1 := by
  have h := C6_amended findUserC6 emptyDB eventC6 1 "CUS1" 0 rfl rfl rfl
  exact ⟨h.1, h.2.2.2.1⟩

/-! ## Claim C5: what the deduplication gate actually is -/

theorem hasTxn_set_events (db : DB) (evs : List (String × String)) (r : String) :
    hasTxn { db with webhookEvents := evs } r = hasTxn db r := rfl

theorem handleWalletFunding_events_independent (f : String → Option Nat)
    (v : String → VerifyResult) (db : DB) (evs : List (String × String))
    (e : ChargeEvent) (now : Int) :
    (handleWalletFunding f v { db with webhookEvents := evs } e now).1 =
      (handleWalletFunding f v db e now).1 := by
  cases hcc : e.customerCode with
  | none => simp [handleWalletFunding, hcc]
  | some c =>
    by_cases h1 : referenceFormatOk e.reference
    · by_cases h2 : hasTxn db e.reference
      · simp [handleWalletFunding, hcc, h1, h2, hasTxn_set_events]
      · by_cases h3 : (v e.reference).status = "success"
        · cases h4 : f c with
          | none => simp [handleWalletFunding, hcc, h1, h2, h3, h4, hasTxn_set_events]
          | some uid =>
            simp [handleWalletFunding, hcc, h1, h2, h3, h4, hasTxn_set_events,
              processWalletFundingRpc]
        · simp [handleWalletFunding, hcc, h1, h2, h3, hasTxn_set_events]
    · simp [handleWalletFunding, hcc, h1]

/-- Claim C5 counterexample: with the pair (REFC5001, charge.success)
already present in webhook_events but no transaction row, the
insert-if-absent admission the claim describes answers DUPLICATE, yet
the webhook funding path reads only the transactions table, answers
first-seen, and proceeds all the way to crediting the wallet. -/
theorem C5_counterexample :
    (specAdmit dbC5.webhookEvents "REFC5001" "charge.success").1 = AdmitResult.duplicateRef ∧
    webhookAdmitDuplicate dbC5 "REFC5001" = false ∧
    (handleWalletFunding findUserC5 verifyC5 dbC5 eventC5 0).1 = FundOutcome.credited := by
  refine ⟨by decide, by decide, ?_⟩
  have hfmt : referenceFormatOk "REFC5001" = true := by decide
  have htol : ¬((1 : ℚ) / 100 < |(5000 : ℚ) / 100 - 5000 / 100|) := by norm_num
  simp [handleWalletFunding, eventC5, verifyC5, findUserC5, dbC5, emptyDB, hasTxn,
    hfmt, htol, processWalletFundingRpc]

/-- Claim C5 (amended): neither ingestion path implements admission as
an insert-if-absent on webhook_events. The webhook funding path
decides duplicates by a prior read of the transactions table keyed by
reference alone, and its outcome is entirely independent of the
webhook_events table; the polling path credits an event iff neither
its in-memory set nor the transactions table carries the reference; a
unique-constraint violation on the transactions insert inside the
funding RPC is only a backstop signalling an already-present
reference. -/
theorem C5_amended :
    (∀ f v db evs e now,
      (handleWalletFunding f v { db with webhookEvents := evs } e now).1 =
        (handleWalletFunding f v db e now).1) ∧
    (∀ f v db e now c, e.customerCode = some c → referenceFormatOk e.reference = true →
      hasTxn db e.reference = true →
      (handleWalletFunding f v db e now).1 = FundOutcome.duplicate) ∧
    (∀ ps uid snap e now, e.status = "success" → e.channel = "dedicated_nuban" →
      ((pollProcessTransaction ps uid snap e now).1 = FundOutcome.credited ↔
        pollAdmitDuplicate ps e.reference = false)) ∧
    (∀ db uid amt ref now,
      ((processWalletFundingRpc db uid amt ref now).1 = RpcResult.uniqueViolation ↔
        hasTxn db ref = true)) := by
  refine ⟨handleWalletFunding_events_independent, ?_, ?_, ?_⟩
  · intro f v db e now c hcc hfmt hdup
    simp [handleWalletFunding, hcc, hfmt, hdup]
  · intro ps uid snap e now hst hch
    by_cases h2 : e.reference ∈ ps.processedRefs
    · simp [pollProcessTransaction, pollAdmitDuplicate, hst, hch, h2]
    · by_cases h3 : hasTxn ps.db e.reference
      · simp [pollProcessTransaction, pollAdmitDuplicate, hst, hch, h2, h3]
      · simp [pollProcessTransaction, pollAdmitDuplicate, hst, hch, h2, h3]
  · intro db uid amt ref now
    by_cases h : hasTxn db ref
    · simp [processWalletFundingRpc, h]
    · simp [processWalletFundingRpc, h]

/-- Claim C5 witness: the amended statement evaluated on concrete
states. -/
theorem C5_witness :
    (handleWalletFunding findUserC5 verifyC5
      { emptyDB with webhookEvents := [("REFC5001", "charge.success")] } eventC5 0).1 =
      (handleWalletFunding findUserC5 verifyC5 emptyDB eventC5 0).1 ∧
    (processWalletFundingRpc
      { emptyDB with transactions :=
          [{ userId := 1, txType := TxnType.credit, amount := 50, serviceFee := 0,
             reference := "REFC5002", status := TxnStatus.completed, refunded := false,
             createdAt := 0 }] } 1 50 "REFC5002" 0).1 = RpcResult.uniqueViolation := by
  constructor
  · exact C5_amended.1 findUserC5 verifyC5 emptyDB [("REFC5001", "charge.success")] eventC5 0
  · exact (C5_amended.2.2.2
      { emptyDB with transactions :=
          [{ userId := 1, txType := TxnType.credit, amount := 50, serviceFee := 0,
             reference := "REFC5002", status := TxnStatus.completed, refunded := false,
             createdAt := 0 }] } 1 50 "REFC5002" 0).2 (by decide)

/-! ## Claim C1: idempotent crediting across webhook and polling -/

theorem refTxns_eq_nil (db : DB) (ref : String) (h : hasTxn db ref = false) :
    refTxns db ref = [] := by
  unfold refTxns
  rw [List.filter_eq_nil_iff]
  intro t ht
  exact (List.any_eq_false.mp h) t ht

theorem hasTxn_of_refTxns_single (db : DB) (ref : String) (tx : Txn)
    (h : refTxns db ref = [tx]) : hasTxn db ref = true := by
  by_cases hb : hasTxn db ref
  · exact hb
  · rw [refTxns_eq_nil db ref (by simpa using hb)] at h
    cases h

theorem handleWalletFunding_dup (f : String → Option Nat) (v : String → VerifyResult)
    (db : DB) (e : ChargeEvent) (now : Int) (h : hasTxn db e.reference = true) :
    (handleWalletFunding f v db e now).2 = db := by
  cases hcc : e.customerCode with
  | none => simp [handleWalletFunding, hcc]
  | some c =>
    by_cases h1 : referenceFormatOk e.reference
    · simp [handleWalletFunding, hcc, h1, h]
    · simp [handleWalletFunding, hcc, h1]

theorem pollProcessTransaction_dup (ps : PollState) (uid : Nat) (snap : ℚ)
    (e : ChargeEvent) (now : Int) (h : hasTxn ps.db e.reference = true) :
    (pollProcessTransaction ps uid snap e now).2.db = ps.db := by
  by_cases h1 : e.status = "success"
  · by_cases h2 : e.reference ∈ ps.processedRefs
    · simp [pollProcessTransaction, h1, h2]
    · simp [pollProcessTransaction, h1, h2, h]
  · simp [pollProcessTransaction, h1]

theorem handleWalletFunding_first (f : String → Option Nat) (v : String → VerifyResult)
    (db : DB) (e : ChargeEvent) (now : Int) (uid : Nat) (c : String)
    (hcc : e.customerCode = some c) (hfu : f c = some uid)
    (hfmt : referenceFormatOk e.reference = true)
    (hvs : (v e.reference).status = "success")
    (hva : (v e.reference).amountKobo = e.amountKobo)
    (hnt : hasTxn db e.reference = false) :
    (handleWalletFunding f v db e now).2 =
      { db with
        balances := fun u =>
          if u = uid then db.balances uid + e.amountKobo / 100 else db.balances u,
        transactions := db.transactions ++
          [{ userId := uid, txType := .credit, amount := e.amountKobo / 100,
             serviceFee := 0, reference := e.reference, status := .completed,
             refunded := false, createdAt := now }] } := by
  have hneg : ¬((100 : ℚ)⁻¹ < 0) := by norm_num
  simp [handleWalletFunding, hcc, hfmt, hnt, hvs, hfu, hva, sub_self, abs_zero, hneg,
    processWalletFundingRpc, DB.setBalance]

theorem pollProcessTransaction_first (ps : PollState) (uid : Nat) (e : ChargeEvent)
    (now : Int) (hst : e.status = "success") (hch : e.channel = "dedicated_nuban")
    (hnp : e.reference ∉ ps.processedRefs) (hnt : hasTxn ps.db e.reference = false) :
    (pollProcessTransaction ps uid (ps.db.balances uid) e now).2 =
      { db := { ps.db with
          balances := fun u =>
            if u = uid then ps.db.balances uid + e.amountKobo / 100 else ps.db.balances u,
          transactions := ps.db.transactions ++
            [{ userId := uid, txType := .credit, amount := e.amountKobo / 100,
               serviceFee := 0, reference := e.reference, status := .completed,
               refunded := false, createdAt := now }],
          webhookEvents := ps.db.webhookEvents ++ [(e.reference, "charge.success")] },
        processedRefs := e.reference :: ps.processedRefs } := by
  simp [pollProcessTransaction, hst, hch, hnp, hnt, DB.setBalance]

theorem filter_ref_append_single (l : List Txn) (ref : String) (tx : Txn)
    (hl : l.filter (fun t => t.reference == ref) = []) (htx : tx.reference = ref) :
    (l ++ [tx]).filter (fun t => t.reference == ref) = [tx] := by
  rw [List.filter_append, hl]
  simp [htx]

/-- Claim C1: delivering one external funding event any positive
number of times, through any mix of the webhook funding handler and
the polling processor, yields exactly one completed credit transaction
row for the reference and exactly one balance increment of the owning
wallet, with all other wallets untouched. Requires a well-formed
successful event (resolvable customer, valid reference format,
processor verification succeeding with the notified amount) whose
reference is initially unknown. -/
theorem C1_idempotent_credit (f : String → Option Nat) (v : String → VerifyResult)
    (uid : Nat) (c : String) (e : ChargeEvent) (now : Int) (ps0 : PollState)
    (hcc : e.customerCode = some c) (hfu : f c = some uid)
    (hfmt : referenceFormatOk e.reference = true)
    (hvs : (v e.reference).status = "success")
    (hva : (v e.reference).amountKobo = e.amountKobo)
    (hst : e.status = "success") (hch : e.channel = "dedicated_nuban")
    (hnt : hasTxn ps0.db e.reference = false)
    (hnp : e.reference ∉ ps0.processedRefs) :
    ∀ paths : List Path, paths ≠ [] →
      C1Inv uid e now ps0.db.balances (runDeliveries f v uid e now paths ps0) := by
  have hQPres : ∀ (p : Path) (ps : PollState),
      C1Inv uid e now ps0.db.balances ps →
      C1Inv uid e now ps0.db.balances (deliverFunding f v uid e now p ps) := by
    rintro p ps ⟨hr, hb, hfr⟩
    have hdup : hasTxn ps.db e.reference = true := hasTxn_of_refTxns_single _ _ _ hr
    cases p with
    | webhook =>
      have hdb : (deliverFunding f v uid e now Path.webhook ps).db = ps.db :=
        handleWalletFunding_dup f v ps.db e now hdup
      exact ⟨by rw [hdb]; exact hr, by rw [hdb]; exact hb,
        fun u hu => by rw [hdb]; exact hfr u hu⟩
    | poll =>
      have hdb : (deliverFunding f v uid e now Path.poll ps).db = ps.db :=
        pollProcessTransaction_dup ps uid (ps.db.balances uid) e now hdup
      exact ⟨by rw [hdb]; exact hr, by rw [hdb]; exact hb,
        fun u hu => by rw [hdb]; exact hfr u hu⟩
  have hQfold : ∀ (rest : List Path) (ps : PollState),
      C1Inv uid e now ps0.db.balances ps →
      C1Inv uid e now ps0.db.balances
        (rest.foldl (fun s p => deliverFunding f v uid e now p s) ps) := by
    intro rest
    induction rest with
    | nil => intro ps h; exact h
    | cons p r ih => intro ps h; exact ih _ (hQPres p ps h)
  have hQ1 : ∀ p : Path, C1Inv uid e now ps0.db.balances (deliverFunding f v uid e now p ps0) := by
    intro p
    have hfil : ps0.db.transactions.filter (fun t => t.reference == e.reference) = [] :=
      refTxns_eq_nil ps0.db e.reference hnt
    cases p with
    | webhook =>
      have hdb : (deliverFunding f v uid e now Path.webhook ps0).db =
          { ps0.db with
            balances := fun u =>
              if u = uid then ps0.db.balances uid + e.amountKobo / 100 else ps0.db.balances u,
            transactions := ps0.db.transactions ++
              [{ userId := uid, txType := .credit, amount := e.amountKobo / 100,
                 serviceFee := 0, reference := e.reference, status := .completed,
                 refunded := false, createdAt := now }] } :=
        handleWalletFunding_first f v ps0.db e now uid c hcc hfu hfmt hvs hva hnt
      refine ⟨?_, ?_, ?_⟩
      · unfold C1Inv refTxns at *
        rw [hdb]
        exact filter_ref_append_single ps0.db.transactions e.reference _ hfil rfl
      · rw [hdb]
        simp
      · intro u hu
        rw [hdb]
        simp [hu]
    | poll =>
      have hdb : (deliverFunding f v uid e now Path.poll ps0) =
          { db := { ps0.db with
              balances := fun u =>
                if u = uid then ps0.db.balances uid + e.amountKobo / 100
                else ps0.db.balances u,
              transactions := ps0.db.transactions ++
                [{ userId := uid, txType := .credit, amount := e.amountKobo / 100,
                   serviceFee := 0, reference := e.reference, status := .completed,
                   refunded := false, createdAt := now }],
              webhookEvents := ps0.db.webhookEvents ++ [(e.reference, "charge.success")] },
            processedRefs := e.reference :: ps0.processedRefs } :=
        pollProcessTransaction_first ps0 uid e now hst hch hnp hnt
      refine ⟨?_, ?_, ?_⟩
      · unfold C1Inv refTxns at *
        rw [hdb]
        exact filter_ref_append_single ps0.db.transactions e.reference _ hfil rfl
      · rw [hdb]
        simp
      · intro u hu
        rw [hdb]
        simp [hu]
  intro paths hne
  cases paths with
  | nil => exact absurd rfl hne
  | cons p rest =>
    have h2 := hQfold rest _ (hQ1 p)
    exact h2

/-- Claim C1 witness: three deliveries of the concrete fixture event
(webhook, then poll, then webhook again) leave exactly one completed
credit row and one balance increment. -/
theorem C1_witness :
    C1Inv 3 eventC1 0 psC1.db.balances
      (runDeliveries findUserC1 verifyC1 3 eventC1 0
        [Path.webhook, Path.poll, Path.webhook] psC1) :=
  C1_idempotent_credit findUserC1 verifyC1 3 "CUS9" eventC1 0 psC1
    rfl rfl (by decide) rfl rfl rfl rfl rfl (by simp [psC1])
    [Path.webhook, Path.poll, Path.webhook] (by decide)

end WallyBot
